import Mathlib

/-!
Verification of the taste-profiling and candidate-scoring engine of the
`messagebox` repository (`src/recommender.py`).

The Python module is shallowly embedded: Python `dict`s become insertion-ordered
association lists with last-wins update, Python `float` arithmetic is idealised
as exact arithmetic (rationals where the program only ever manipulates rational
constants, reals where `math.log` appears), and Python `set` arguments become
lists (the program only tests membership, so iteration order is irrelevant to
the proved properties).  Fallible parsing returns `Option`.
-/

/-! ### Ordered-dictionary helpers (Python `dict` on string keys) -/

/-- Update-or-append on an association list: replaces the value at an existing
key in place (keeping its position, as Python `d[k] = v` does) or appends a new
binding at the end. -/
def dset {α : Type} (d : List (String × α)) (k : String) (v : α) : List (String × α) :=
  match d with
  | [] => [(k, v)]
  | (k2, v2) :: t => if k2 = k then (k, v) :: t else (k2, v2) :: dset t k v

/-- Lookup on an association list, `d.get(k)` returning `None` when absent. -/
def dget? {α : Type} (d : List (String × α)) (k : String) : Option α :=
  match d with
  | [] => none
  | (k2, v2) :: t => if k2 = k then some v2 else dget? t k

/-- Lookup with default, Python `d.get(k, v0)`. -/
def dgetD {α : Type} (d : List (String × α)) (k : String) (v0 : α) : α :=
  (dget? d k).getD v0

/-! ### Python string primitives

Core `String.trim`, `String.toLower` and `String.startsWith` are not
kernel-reducible, so the Python builtins are embedded directly as list
computations on the character data. -/

/-- Python `str.strip()`: drop whitespace from both ends. -/
def pyStrip (s : String) : String :=
  ⟨((s.data.dropWhile Char.isWhitespace).reverse.dropWhile Char.isWhitespace).reverse⟩

/-- Python `str.lower()` (ASCII case folding). -/
def pyLower (s : String) : String :=
  ⟨s.data.map Char.toLower⟩

/-- Whether `s` starts with the pattern `p`, on character lists. -/
def startsWithL : List Char → List Char → Bool
  | _, [] => true
  | [], _ :: _ => false
  | c :: s, d :: p => if c = d then startsWithL s p else false

/-- Python `str.startswith(p)`. -/
def pyStartsWith (s p : String) : Bool :=
  startsWithL s.data p.data

/-! ### Keys and the movie data model (`recommender.py` lines 14-51) -/

/-- Embeds `_norm_title`: `(title or "").strip().lower()`. -/
def norm_title (title : String) : String :=
  pyLower (pyStrip title)

/-- Embeds `_movie_key`: normalised title and trimmed year joined by `"::"`. -/
def movie_key (title : String) (year : String) : String :=
  norm_title title ++ "::" ++ pyStrip year

/-- Embeds the `Movie` dataclass.  `imdb_rating` keeps the rational value of the
source float (or `none`). -/
structure Movie : Type where
  title : String
  year : String
  genres : List String
  actors : List String
  directors : List String
  imdb_url : String
  poster_url : String
  imdb_rating : Option ℚ
deriving DecidableEq, Repr

/-- Embeds the `Movie.key` property. -/
def Movie.key (m : Movie) : String :=
  movie_key m.title m.year

/-- Embeds `index_by_key`: dict comprehension `{m.key: m for m in movies if m.title}`
(insertion order, last wins, empty-title movies skipped). -/
def index_by_key (movies : List Movie) : List (String × Movie) :=
  movies.foldl (fun acc m => if m.title = "" then acc else dset acc m.key m) []

/-! ### Rating parsing and weighting (`recommender.py` lines 87-119) -/

/-- Numeric value of a digit list, most significant first. -/
def digitsToNat (l : List Char) : ℕ :=
  l.foldl (fun n c => 10 * n + (c.toNat - 48)) 0

/-- Models the Python builtin `float()` on an unsigned decimal numeral
(`digits`, `digits.digits`, `.digits` or `digits.`); anything else fails.
Exponent, `inf`/`nan` and underscore forms are not used by any claim and are
treated as parse failures. -/
def pyFloatCore (l : List Char) : Option ℚ :=
  let intPart := l.takeWhile Char.isDigit
  let rest := l.dropWhile Char.isDigit
  match rest with
  | [] => if intPart = [] then none else some (digitsToNat intPart)
  | '.' :: frac =>
    let fracPart := frac.takeWhile Char.isDigit
    let rest2 := frac.dropWhile Char.isDigit
    if rest2 ≠ [] then none
    else if intPart = [] ∧ fracPart = [] then none
    else some ((digitsToNat intPart : ℚ) + (digitsToNat fracPart : ℚ) / 10 ^ fracPart.length)
  | _ => none

/-- Models `float()` on an optionally signed decimal numeral. -/
def pyFloat (s : String) : Option ℚ :=
  match s.data with
  | '+' :: rest => pyFloatCore rest
  | '-' :: rest => (pyFloatCore rest).map (fun q => -q)
  | l => pyFloatCore l

/-- Embeds `parse_rating`: `None` stays absent, the string is stripped, an
empty string is absent, and `float()` failure is caught and yields absent. -/
def parse_rating (value : Option String) : Option ℚ :=
  match value with
  | none => none
  | some v =>
    let s := pyStrip v
    if s = "" then none else pyFloat s

/-- Embeds `rating_weight`: unknown rating gives `1.0`; a rating `≤ 5` is mapped
from `[0,5]` onto `[0.75, 1.35]`; a larger rating is mapped from `[0,10]` onto
the same range (clamped). -/
def rating_weight (rating : Option ℚ) : ℚ :=
  match rating with
  | none => 1
  | some r =>
    if r ≤ 5 then 0.75 + (max 0 (min r 5)) / 5 * 0.60
    else 0.75 + (max 0 (min r 10)) / 10 * 0.60

/-! ### Profile normalisation and entropy (`recommender.py` lines 122-143) -/

/-- Embeds `_normalize_profile`: divide by the maximum value (clamping into
`[0,1]`), or return all zeros when the maximum is not positive. -/
def normalize_profile (raw : List (String × ℚ)) : List (String × ℚ) :=
  match raw with
  | [] => []
  | (k0, v0) :: t =>
    let max_v := (t.map Prod.snd).foldl max v0
    if max_v ≤ 0 then ((k0, v0) :: t).map (fun kv => (kv.1, 0))
    else ((k0, v0) :: t).map (fun kv => (kv.1, max 0 (min (kv.2 / max_v) 1)))

open Classical in
/-- Embeds `_entropy_norm`: normalised Shannon entropy in `[0,1]` of the
positive part of the value distribution, with `math.log` embedded as the real
logarithm. -/
noncomputable def entropy_norm (dist : List (String × ℚ)) : ℝ :=
  let vals := dist.map Prod.snd
  let total : ℚ := (vals.map (fun v => max 0 v)).sum
  if total ≤ 0 then 0
  else
    let probs : List ℚ := (vals.filter (fun v => decide (0 < v))).map (fun v => max 0 v / total)
    if probs = [] then 0
    else
      let h : ℝ := -((probs.map (fun p : ℚ => (p : ℝ) * Real.log (p : ℝ))).sum)
      let hmax : ℝ := if 1 < probs.length then Real.log (probs.length : ℝ) else 1
      max 0 (min (h / hmax) 1)

/-! ### Profile building (`analyze_user_history`, lines 146-205) -/

/-- Accumulation step shared by the three raw profiles: add `w` to the raw score
of every name in `names` (Python `d[g] = d.get(g, 0.0) + w` in a loop). -/
def add_weighted (d : List (String × ℚ)) (names : List String) (w : ℚ) : List (String × ℚ) :=
  names.foldl (fun acc g => dset acc g (dgetD acc g 0 + w)) d

/-- Raw (pre-normalisation) genre/actor/director scores accumulated from the
watched keys (rating-weighted) and then the liked keys (flat boosts), as in
lines 155-181. -/
def raw_profiles (watched_keys : List String)
    (watched_rating_by_key : List (String × Option ℚ))
    (movie_index : List (String × Movie)) (liked_keys : List String) :
    List (String × ℚ) × List (String × ℚ) × List (String × ℚ) :=
  let step1 := watched_keys.foldl
    (fun acc k =>
      match dget? movie_index k with
      | none => acc
      | some m =>
        let w := rating_weight (dgetD watched_rating_by_key k none)
        (add_weighted acc.1 m.genres w,
         add_weighted acc.2.1 (m.actors.take 6) (w * 0.5),
         add_weighted acc.2.2 (m.directors.take 2) (w * 0.9)))
    ([], [], [])
  liked_keys.foldl
    (fun acc k =>
      match dget? movie_index k with
      | none => acc
      | some m =>
        (add_weighted acc.1 m.genres 0.8,
         add_weighted acc.2.1 (m.actors.take 6) 0.5,
         add_weighted acc.2.2 (m.directors.take 2) 0.9))
    step1

/-- Entropy-based rescale of the normalised genre profile (lines 188-193): each
weight is multiplied by `0.75 + 0.25 * concentration` and clamped into `[0,1]`. -/
noncomputable def genre_adjust (genre_raw : List (String × ℚ)) : List (String × ℝ) :=
  let conc : ℝ := 1 - entropy_norm genre_raw
  (normalize_profile genre_raw).map
    (fun kv => (kv.1, max 0 (min ((kv.2 : ℝ) * (0.75 + 0.25 * conc)) 1)))

/-- Force-set the trimmed non-empty preferred names to weight `1.0`
(lines 196-203). -/
def set_preferred (profile : List (String × ℚ)) (names : List String) : List (String × ℚ) :=
  names.foldl (fun acc a => if pyStrip a = "" then acc else dset acc (pyStrip a) 1) profile

/-- Embeds `analyze_user_history`.  The genre profile carries real weights
(entropy-rescaled); the actor and director profiles stay rational. -/
noncomputable def analyze_user_history (watched_keys : List String)
    (watched_rating_by_key : List (String × Option ℚ))
    (movie_index : List (String × Movie))
    (liked_keys : List String)
    (preferred_actors : List String)
    (preferred_directors : List String) :
    List (String × ℝ) × List (String × ℚ) × List (String × ℚ) :=
  let raws := raw_profiles watched_keys watched_rating_by_key movie_index liked_keys
  let genre_profile := genre_adjust raws.1
  let actor_profile := set_preferred (normalize_profile raws.2.1) preferred_actors
  let director_profile := set_preferred (normalize_profile raws.2.2) preferred_directors
  (genre_profile, actor_profile, director_profile)

/-! ### Scoring (`score_movie`, lines 208-239) -/

/-- Embeds `score_movie`: weighted mix of genre/actor/director means (the last
two only in `"super"` mode), an IMDb-rating bonus around the `8.0` baseline, and
a poster bonus/penalty. -/
noncomputable def score_movie (movie : Movie) (genre_profile : List (String × ℝ))
    (actor_profile director_profile : List (String × ℚ)) (mode : String) : ℝ :=
  let gs := movie.genres.map (fun g => dgetD genre_profile g 0)
  let genre_score : ℝ := if gs = [] then 0 else gs.sum / gs.length
  let actor_score : ℝ :=
    if mode = "super" then
      let as2 := (movie.actors.take 8).map (fun a => dgetD actor_profile a 0)
      if as2 = [] then 0 else ((as2.sum : ℚ) : ℝ) / as2.length
    else 0
  let director_score : ℝ :=
    if mode = "super" then
      let ds2 := (movie.directors.take 2).map (fun d => dgetD director_profile d 0)
      if ds2 = [] then 0 else ((ds2.sum : ℚ) : ℝ) / ds2.length
    else 0
  let base := 0.78 * genre_score + 0.12 * actor_score + 0.10 * director_score
  let base2 :=
    match movie.imdb_rating with
    | none => base
    | some r => base + ((max 0 (min r 10) - 8 : ℚ) : ℝ) * 0.06
  if movie.poster_url ≠ "" ∧ pyStartsWith movie.poster_url "http" = true then base2 + 0.12
  else base2 - 0.18

/-! ### Batch selection (`recommend_batch`, lines 242-345) -/

/-- Result dictionary shape produced for each recommended movie. -/
structure ResultItem : Type where
  title : String
  year : String
  director : String
  image : String
  why_it_fits : String
  score : ℝ
  mode : String

open Classical in
/-- Models Python `round(x, 4)` (round to four decimal places, ties to the even
last digit), used only for the displayed `_score` field. -/
noncomputable def pyRound4 (x : ℝ) : ℝ :=
  let n : ℤ := ⌊x * 10000⌋
  let r : ℝ := x * 10000 - (n : ℝ)
  let k : ℤ := if r < 1 / 2 then n else if 1 / 2 < r then n + 1 else if 2 ∣ n then n else n + 1
  (k : ℝ) / 10000

/-- Mode normalisation from line 254: anything but (trimmed, lowercased)
`"super"` is `"regular"`. -/
def norm_mode (mode : String) : String :=
  if pyLower (pyStrip mode) = "super" then "super" else "regular"

/-- Clamped batch size from line 255: `max(1, min(batch_size, 60))`, as the
count actually used for truncation. -/
def clamp_batch (batch_size : ℤ) : ℕ :=
  (max 1 (min batch_size 60)).toNat

/-- Eligible pool (lines 270-280): candidates whose key is in none of the
watched, excluded or liked-context sets. -/
def eligible_pool (candidates : List Movie)
    (watched_keys exclude_keys liked_keys_context : List String) : List Movie :=
  candidates.filter
    (fun m => decide (m.key ∉ watched_keys ∧ m.key ∉ exclude_keys ∧ m.key ∉ liked_keys_context))

/-- Round thresholds from line 283 (the regular ladder is stricter). -/
def thresholds (mode2 : String) : List ℚ :=
  if mode2 = "regular" then [0.3, 0.5, 0.6, 0.6, 0.6] else [0.25, 0.3, 0.35, 0.35, 0.35]

/-- Profiles as built inside `recommend_batch` (lines 257-268): the index over
the candidate list, the watched set as a list, the liked context as the liked
keys. -/
noncomputable def batch_profiles (candidates : List Movie)
    (watched_keys : List String) (watched_rating_by_key : List (String × Option ℚ))
    (liked_keys_context : List String)
    (preferred_actors preferred_directors : List String) :
    List (String × ℝ) × List (String × ℚ) × List (String × ℚ) :=
  analyze_user_history watched_keys watched_rating_by_key (index_by_key candidates)
    liked_keys_context preferred_actors preferred_directors

/-- Pre-scored eligible pool (line 286). -/
noncomputable def scored_pool (candidates : List Movie)
    (watched_keys exclude_keys liked_keys_context : List String)
    (watched_rating_by_key : List (String × Option ℚ))
    (mode2 : String) (preferred_actors preferred_directors : List String) :
    List (Movie × ℝ) :=
  let profs := batch_profiles candidates watched_keys watched_rating_by_key
    liked_keys_context preferred_actors preferred_directors
  (eligible_pool candidates watched_keys exclude_keys liked_keys_context).map
    (fun m => (m, score_movie m profs.1 profs.2.1 profs.2.2 mode2))

open Classical in
/-- Iterative threshold loop (lines 288-296): adopt the filtered set when it is
large enough or merely non-empty; keep the previous working set only when the
filter comes back empty. -/
noncomputable def relax (bs : ℕ) : List ℚ → List (Movie × ℝ) → List (Movie × ℝ)
  | [], working => working
  | t :: ts, working =>
    let filtered := working.filter (fun ms => decide ((t : ℝ) ≤ ms.2))
    relax bs ts (if bs ≤ filtered.length then filtered
                 else if filtered = [] then working else filtered)

open Classical in
/-- Stable descending sort on the second (score) component, the meaning of the
Python `sort(key=..., reverse=True)` / `sorted(key=..., reverse=True)` calls at
lines 299, 321 and 329. -/
noncomputable def sort_by_score {α : Type} (l : List (α × ℝ)) : List (α × ℝ) :=
  l.mergeSort (fun a b => decide (b.2 ≤ a.2))

/-- Genre-count increments for the super-mode diversity bookkeeping
(lines 318-319). -/
def bump_genres (counts : List (String × ℕ)) (genres : List String) : List (String × ℕ) :=
  genres.foldl (fun c g => dset c g (dgetD c g 0 + 1)) counts

open Classical in
/-- Greedy diversified walk of super mode (lines 302-319): stop at `bs` picks,
penalise already-used genres by `0.03` each, append with the adjusted score. -/
noncomputable def super_select_go (bs : ℕ) :
    List (Movie × ℝ) → List (Movie × ℝ) → List (String × ℕ) → List (Movie × ℝ)
  | [], selected, _ => selected
  | (m, s) :: rest, selected, counts =>
    if bs ≤ selected.length then selected
    else
      let p : ℝ := (m.genres.map (fun g => (0.03 : ℝ) * ((dgetD counts g 0 : ℕ) : ℝ))).sum
      super_select_go bs rest (selected ++ [(m, s - p)]) (bump_genres counts m.genres)

/-- Super-mode selection with the stability re-sort by adjusted score
(lines 302-321). -/
noncomputable def super_select (bs : ℕ) (working : List (Movie × ℝ)) : List (Movie × ℝ) :=
  sort_by_score (super_select_go bs working [] [])

/-- Top-2 genre text of the `why_it_fits` sentence (lines 329-330): the movie's
genres sorted by profile weight descending, truncated to two, non-empty names
joined with a comma. -/
noncomputable def why_genres_text (genre_profile : List (String × ℝ)) (m : Movie) : String :=
  let top_genres :=
    (sort_by_score (m.genres.map (fun g => (g, dgetD genre_profile g 0)))).take 2
  String.intercalate ", " ((top_genres.map Prod.fst).filter (fun g => g ≠ ""))

/-- Full `why_it_fits` string (lines 327-332): empty unless the profile and the
genre list are non-empty and a non-empty top-genre name survives. -/
noncomputable def why_text (genre_profile : List (String × ℝ)) (m : Movie) : String :=
  if genre_profile ≠ [] ∧ m.genres ≠ [] then
    let gtxt := why_genres_text genre_profile m
    if gtxt ≠ "" then "Strong match for your " ++ gtxt ++ " taste." else ""
  else ""

/-- Result-dictionary construction for one selected movie (lines 326-343). -/
noncomputable def result_of (genre_profile : List (String × ℝ)) (mode2 : String)
    (ms : Movie × ℝ) : ResultItem :=
  { title := ms.1.title
    year := ms.1.year
    director := ms.1.directors.headD ""
    image := if ms.1.poster_url = "" then "logo.svg" else ms.1.poster_url
    why_it_fits := why_text genre_profile ms.1
    score := pyRound4 ms.2
    mode := mode2 }

/-- Embeds `recommend_batch` end to end. -/
noncomputable def recommend_batch (candidates : List Movie)
    (watched_keys exclude_keys liked_keys_context : List String)
    (watched_rating_by_key : List (String × Option ℚ))
    (mode : String) (batch_size : ℤ)
    (preferred_actors preferred_directors : List String) : List ResultItem :=
  let mode2 := norm_mode mode
  let bs := clamp_batch batch_size
  let profs := batch_profiles candidates watched_keys watched_rating_by_key
    liked_keys_context preferred_actors preferred_directors
  let scored := scored_pool candidates watched_keys exclude_keys liked_keys_context
    watched_rating_by_key mode2 preferred_actors preferred_directors
  let working := relax bs (thresholds mode2) scored
  let sorted := sort_by_score working
  let selected := if mode2 = "super" then super_select bs sorted else sorted.take bs
  (selected.take bs).map (result_of profs.1 mode2)

/-! ### Small association-list lemmas -/

/-- Membership in `dset d k v` comes from the new binding or from `d`. -/
theorem mem_dset {α : Type} (d : List (String × α)) (k : String) (v : α)
    (km : String × α) (h : km ∈ dset d k v) : km = (k, v) ∨ km ∈ d := by
  induction d with
  | nil => simpa [dset] using h
  | cons hd t ih =>
    rw [dset] at h
    by_cases hk : hd.1 = k
    · rw [if_pos hk] at h
      rcases List.mem_cons.mp h with h1 | h1
      · exact Or.inl h1
      · exact Or.inr (List.mem_cons_of_mem hd h1)
    · rw [if_neg hk] at h
      rcases List.mem_cons.mp h with h1 | h1
      · exact Or.inr (h1 ▸ List.mem_cons_self hd t)
      · rcases ih h1 with h2 | h2
        · exact Or.inl h2
        · exact Or.inr (List.mem_cons_of_mem hd h2)

/-! ### Concrete movies used to exercise the pipeline on closed inputs -/

/-- Watched seed movie: single genre `"A"`. -/
def mW : Movie := ⟨"W", "1", ["A"], [], [], "", "http://w", none⟩

/-- Candidate fully matching the taste profile (scores `0.90` in regular mode). -/
def mTop : Movie := ⟨"M1", "2", ["A"], [], [], "", "http://1", some 8⟩

/-- Candidate with a half genre match (scores `0.45` in regular mode). -/
def mMid : Movie := ⟨"M2", "3", ["A", "B"], [], [], "", "http://2", some 7⟩

/-- Candidate whose only genre has profile weight zero (scores `0.12`). -/
def mLow : Movie := ⟨"M3", "4", ["B"], [], [], "", "http://3", none⟩

/-- Movie with an empty title, skipped by `index_by_key`. -/
def mEmptyTitle : Movie := ⟨"", "9", ["A"], [], [], "", "http://e", some 9⟩

/-! ### Claim C9 -/

/-- C9: the rating weight is not monotone in the rating.  `rating_weight` maps
`5.0` to `1.35` but `6.0` to only `1.11`, so a strictly higher rating gets a
strictly lower weight across the `5.0` scale-inference boundary. -/
theorem rating_weight_not_monotone :
    rating_weight (some 5) = 1.35 ∧ rating_weight (some 6) = 1.11 ∧
    (5 : ℚ) < 6 ∧ rating_weight (some 6) < rating_weight (some 5) := by
  norm_num [rating_weight]

/-! ### Claim C5 -/

/-- C5: an absent rating (including an empty, whitespace-only or unparseable
rating string) weighs exactly `1.0`; a rating `r ≤ 5` weighs
`0.75 + clamp(r,0,5)/5 * 0.60`; a rating `r > 5` weighs
`0.75 + clamp(r,0,10)/10 * 0.60`. -/
theorem rating_weight_spec (r1 r2 : ℚ) (h1 : r1 ≤ 5) (h2 : 5 < r2) :
    rating_weight none = 1 ∧
    rating_weight (parse_rating none) = 1 ∧
    parse_rating (some "") = none ∧
    parse_rating (some "   ") = none ∧
    parse_rating (some "n/a") = none ∧
    rating_weight (some r1) = 0.75 + max 0 (min r1 5) / 5 * 0.60 ∧
    rating_weight (some r2) = 0.75 + max 0 (min r2 10) / 10 * 0.60 := by
  refine ⟨rfl, rfl, by decide, by decide, by decide, ?_, ?_⟩
  · rw [rating_weight, if_pos h1]
  · rw [rating_weight, if_neg (not_le.mpr h2)]

/-- Witness for C5 at the concrete ratings `3` and `7`. -/
theorem rating_weight_spec_witness :
    ((3 : ℚ) ≤ 5 ∧ (5 : ℚ) < 7) ∧
    (rating_weight none = 1 ∧
     rating_weight (parse_rating none) = 1 ∧
     parse_rating (some "") = none ∧
     parse_rating (some "   ") = none ∧
     parse_rating (some "n/a") = none ∧
     rating_weight (some 3) = 0.75 + max 0 (min (3 : ℚ) 5) / 5 * 0.60 ∧
     rating_weight (some 7) = 0.75 + max 0 (min (7 : ℚ) 10) / 10 * 0.60) :=
  ⟨⟨by norm_num, by norm_num⟩, rating_weight_spec 3 7 (by norm_num) (by norm_num)⟩

/-! ### Claim C10 -/

/-- Invariant of the `index_by_key` fold: every binding comes from the initial
accumulator or from a non-empty-titled movie of the traversed list. -/
theorem mem_index_fold (l : List Movie) (acc : List (String × Movie)) (km : String × Movie)
    (h : km ∈ l.foldl (fun acc m => if m.title = "" then acc else dset acc m.key m) acc) :
    km ∈ acc ∨ (km.2 ∈ l ∧ km.2.title ≠ "" ∧ km.1 = km.2.key) := by
  induction l generalizing acc with
  | nil => exact Or.inl h
  | cons m t ih =>
    rw [List.foldl_cons] at h
    rcases ih _ h with h1 | h1
    · by_cases hm : m.title = ""
      · rw [if_pos hm] at h1
        exact Or.inl h1
      · rw [if_neg hm] at h1
        rcases mem_dset _ _ _ _ h1 with h2 | h2
        · exact Or.inr ⟨by rw [h2]; exact List.mem_cons_self m t, by rw [h2]; exact hm,
            by rw [h2]⟩
        · exact Or.inl h2
    · exact Or.inr ⟨List.mem_cons_of_mem m h1.1, h1.2⟩

/-- C10: `index_by_key` silently omits every movie whose title is the empty
string: each binding of the returned mapping is keyed by the movie's own key and
holds a movie from the input list whose title is non-empty. -/
theorem index_by_key_no_empty_title (movies : List Movie) (km : String × Movie)
    (h : km ∈ index_by_key movies) :
    km.2.title ≠ "" ∧ km.2 ∈ movies ∧ km.1 = km.2.key := by
  rcases mem_index_fold movies [] km h with h1 | h1
  · exact absurd h1 (List.not_mem_nil km)
  · exact ⟨h1.2.1, h1.1, h1.2.2⟩

/-- Witness for C10: an empty-titled movie is dropped and the surviving binding
is the non-empty-titled movie under its own key. -/
theorem index_by_key_no_empty_title_witness :
    (("w::1", mW) ∈ index_by_key [mEmptyTitle, mW]) ∧
    (mW.title ≠ "" ∧ mW ∈ [mEmptyTitle, mW] ∧ "w::1" = mW.key) :=
  ⟨by decide, index_by_key_no_empty_title [mEmptyTitle, mW] ("w::1", mW) (by decide)⟩

/-! ### Claim C8 -/

/-- A colon-free block before a colon is exactly what `takeWhile` recovers. -/
theorem takeWhile_not_colon (a b : List Char) (ha : ∀ c ∈ a, c ≠ ':') :
    (a ++ ':' :: b).takeWhile (fun c => decide (c ≠ ':')) = a := by
  induction a with
  | nil => simp
  | cons x t ih =>
    have hx : x ≠ ':' := ha x (List.mem_cons_self x t)
    rw [List.cons_append, List.takeWhile_cons, if_pos (by simpa using hx),
      ih (fun c hc => ha c (List.mem_cons_of_mem x hc))]

/-- Splitting at a two-colon separator is unambiguous when the left parts are
colon-free. -/
theorem sep_decomp (a b c d : List Char) (ha : ∀ x ∈ a, x ≠ ':') (hc : ∀ x ∈ c, x ≠ ':')
    (h : a ++ ':' :: ':' :: b = c ++ ':' :: ':' :: d) : a = c ∧ b = d := by
  have h1 : a = c := by
    have h2 := congrArg (List.takeWhile (fun ch => decide (ch ≠ ':'))) h
    rwa [takeWhile_not_colon a (':' :: b) ha, takeWhile_not_colon c (':' :: d) hc] at h2
  subst h1
  have h2 := List.append_cancel_left h
  injection h2 with _ h3
  injection h3 with _ h4
  exact ⟨rfl, h4⟩

/-- C8 (amended): when the normalised titles contain no colon, two movie keys
are equal exactly when the lowercased-trimmed titles agree and the trimmed years
agree; equality of the normalised components always implies key equality; and
the concrete key symmetry example of the specification holds. -/
theorem movie_key_eq_iff (t1 y1 t2 y2 : String)
    (h1 : ∀ c ∈ (norm_title t1).data, c ≠ ':')
    (h2 : ∀ c ∈ (norm_title t2).data, c ≠ ':') :
    (movie_key t1 y1 = movie_key t2 y2 ↔
      norm_title t1 = norm_title t2 ∧ pyStrip y1 = pyStrip y2) ∧
    movie_key "Inception" "2010" = movie_key "  INCEPTION  " "2010" := by
  constructor
  · constructor
    · intro h
      rw [movie_key, movie_key, String.ext_iff, String.data_append, String.data_append,
        String.data_append, String.data_append] at h
      have hsep : ("::" : String).data = [':', ':'] := rfl
      rw [hsep] at h
      have h3 := sep_decomp _ _ _ _ h1 h2 (by simpa using h)
      exact ⟨String.ext h3.1, String.ext h3.2⟩
    · intro h
      rw [movie_key, movie_key, h.1, h.2]
  · decide

/-- Witness for C8 at the specification's own example strings. -/
theorem movie_key_eq_iff_witness :
    ((∀ c ∈ (norm_title "Inception").data, c ≠ ':') ∧
     (∀ c ∈ (norm_title "  INCEPTION  ").data, c ≠ ':')) ∧
    ((movie_key "Inception" "2010" = movie_key "  INCEPTION  " "2010" ↔
        norm_title "Inception" = norm_title "  INCEPTION  " ∧
          pyStrip "2010" = pyStrip "2010") ∧
      movie_key "Inception" "2010" = movie_key "  INCEPTION  " "2010") :=
  ⟨⟨by decide, by decide⟩,
    movie_key_eq_iff "Inception" "2010" "  INCEPTION  " "2010" (by decide) (by decide)⟩

/-- Counterexample to C8 as stated: a title containing `"::"` collides with a
different title/year split, so key equality does not force title equality. -/
theorem movie_key_eq_iff_counterexample :
    movie_key "a::b" "c" = movie_key "a" "b::c" ∧ norm_title "a::b" ≠ norm_title "a" := by
  decide

/-! ### Concrete evaluations of the pipeline -/

/-- Raw profiles of the first concrete input: one watched single-genre movie. -/
theorem eval1_raws : raw_profiles ["w::1"] [] (index_by_key [mW, mTop, mMid]) [] =
    ([("A", 1)], [], []) := by
  norm_num [raw_profiles, index_by_key, add_weighted, dset, dget?, dgetD, rating_weight,
    mW, mTop, mMid, Movie.key,
    show movie_key "W" "1" = "w::1" from by decide,
    show movie_key "M1" "2" = "m1::2" from by decide,
    show movie_key "M2" "3" = "m2::3" from by decide]

/-- Profiles of the first concrete input: genre `"A"` has full weight (a single
genre is fully concentrated, so the entropy rescale factor is `1`). -/
theorem eval1_profiles : batch_profiles [mW, mTop, mMid] ["w::1"] [] [] [] [] =
    ([("A", (1 : ℝ))], [], []) := by
  rw [batch_profiles, analyze_user_history, eval1_raws]
  norm_num [genre_adjust, entropy_norm, normalize_profile, set_preferred, List.filter,
    Real.log_one]

/-- Eligible pool of the first concrete input: the watched movie drops out. -/
theorem eval1_pool : eligible_pool [mW, mTop, mMid] ["w::1"] [] [] = [mTop, mMid] := by
  decide

/-- Scores of the first concrete input in regular mode. -/
theorem eval1_scored : scored_pool [mW, mTop, mMid] ["w::1"] [] [] [] "regular" [] [] =
    [(mTop, (9/10 : ℝ)), (mMid, (9/20 : ℝ))] := by
  rw [scored_pool]
  rw [eval1_profiles, eval1_pool]
  norm_num [score_movie, dgetD, dget?, mTop, mMid,
    show pyStartsWith "http://1" "http" = true from by decide,
    show pyStartsWith "http://2" "http" = true from by decide,
    show ("http://1" : String) ≠ "" from by decide,
    show ("http://2" : String) ≠ "" from by decide,
    show ("A" : String) ≠ "B" from by decide, List.cons_ne_nil]

/-- Threshold relaxation on the first input with batch size `2`: the `0.5`
round shrinks the working set below the batch size. -/
theorem eval1_relax : relax 2 (thresholds "regular") [(mTop, (9/10 : ℝ)), (mMid, (9/20 : ℝ))] =
    [(mTop, (9/10 : ℝ))] := by
  norm_num [thresholds, relax, List.filter]

/-- Threshold relaxation on the first input with batch size `1`. -/
theorem eval1_relax1 : relax 1 (thresholds "regular") [(mTop, (9/10 : ℝ)), (mMid, (9/20 : ℝ))] =
    [(mTop, (9/10 : ℝ))] := by
  norm_num [thresholds, relax, List.filter]

/-- Full batch on the first input with batch size `2`: only one item comes back
even though two candidates clear the loosest threshold. -/
theorem eval1_batch2 : recommend_batch [mW, mTop, mMid] ["w::1"] [] [] [] "regular" 2 [] [] =
    [⟨"M1", "2", "", "http://1", "Strong match for your A taste.", pyRound4 (9/10),
      "regular"⟩] := by
  simp only [recommend_batch, show norm_mode "regular" = "regular" from by decide,
    show clamp_batch 2 = 2 from by decide]
  rw [eval1_profiles, eval1_scored, eval1_relax]
  simp only [sort_by_score, List.mergeSort_singleton,
    show ("regular" : String) ≠ "super" from by decide, if_neg, List.take, List.map]
  rw [result_of, why_text]
  norm_num [why_genres_text, sort_by_score, List.mergeSort_singleton, dgetD, dget?, mTop,
    show String.intercalate ", " ["A"] = "A" from by decide,
    show ("A" : String) ≠ "" from by decide,
    show ("http://1" : String) ≠ "" from by decide,
    show "Strong match for your " ++ "A" ++ " taste." = "Strong match for your A taste." from by
      decide]

/-- Full batch on the first input with batch size `1`. -/
theorem eval1_batch1 : recommend_batch [mW, mTop, mMid] ["w::1"] [] [] [] "regular" 1 [] [] =
    [⟨"M1", "2", "", "http://1", "Strong match for your A taste.", pyRound4 (9/10),
      "regular"⟩] := by
  simp only [recommend_batch, show norm_mode "regular" = "regular" from by decide,
    show clamp_batch 1 = 1 from by decide]
  rw [eval1_profiles, eval1_scored, eval1_relax1]
  simp only [sort_by_score, List.mergeSort_singleton,
    show ("regular" : String) ≠ "super" from by decide, if_neg, List.take, List.map]
  rw [result_of, why_text]
  norm_num [why_genres_text, sort_by_score, List.mergeSort_singleton, dgetD, dget?, mTop,
    show String.intercalate ", " ["A"] = "A" from by decide,
    show ("A" : String) ≠ "" from by decide,
    show ("http://1" : String) ≠ "" from by decide,
    show "Strong match for your " ++ "A" ++ " taste." = "Strong match for your A taste." from by
      decide]

/-- Raw profiles of the second concrete input (watched `mW`, candidate `mLow`). -/
theorem eval2_raws : raw_profiles ["w::1"] [] (index_by_key [mW, mLow]) [] =
    ([("A", 1)], [], []) := by
  norm_num [raw_profiles, index_by_key, add_weighted, dset, dget?, dgetD, rating_weight,
    mW, mLow, Movie.key,
    show movie_key "W" "1" = "w::1" from by decide,
    show movie_key "M3" "4" = "m3::4" from by decide]

/-- Profiles of the second concrete input. -/
theorem eval2_profiles : batch_profiles [mW, mLow] ["w::1"] [] [] [] [] =
    ([("A", (1 : ℝ))], [], []) := by
  rw [batch_profiles, analyze_user_history, eval2_raws]
  norm_num [genre_adjust, entropy_norm, normalize_profile, set_preferred, List.filter,
    Real.log_one]

/-- Eligible pool of the second concrete input. -/
theorem eval2_pool : eligible_pool [mW, mLow] ["w::1"] [] [] = [mLow] := by
  decide

/-- Score of the second concrete input: `mLow` has no genre overlap with the
profile and no IMDb rating, so only the poster bonus `0.12` remains. -/
theorem eval2_scored : scored_pool [mW, mLow] ["w::1"] [] [] [] "regular" [] [] =
    [(mLow, (3/25 : ℝ))] := by
  rw [scored_pool]
  rw [eval2_profiles, eval2_pool]
  norm_num [score_movie, dgetD, dget?, mLow,
    show pyStartsWith "http://3" "http" = true from by decide,
    show ("http://3" : String) ≠ "" from by decide,
    show ("A" : String) ≠ "B" from by decide, List.cons_ne_nil]

/-- Relaxation on the second input: every filter round comes back empty, so the
working set is kept unchanged throughout. -/
theorem eval2_relax : relax 1 (thresholds "regular") [(mLow, (3/25 : ℝ))] =
    [(mLow, (3/25 : ℝ))] := by
  norm_num [thresholds, relax, List.filter]

/-- Full batch on the second input: the sole result still carries a non-empty
`why_it_fits` naming genre `"B"`, whose profile weight is zero. -/
theorem eval2_batch : recommend_batch [mW, mLow] ["w::1"] [] [] [] "regular" 1 [] [] =
    [⟨"M3", "4", "", "http://3", "Strong match for your B taste.", pyRound4 (3/25),
      "regular"⟩] := by
  simp only [recommend_batch, show norm_mode "regular" = "regular" from by decide,
    show clamp_batch 1 = 1 from by decide]
  rw [eval2_profiles, eval2_scored, eval2_relax]
  simp only [sort_by_score, List.mergeSort_singleton,
    show ("regular" : String) ≠ "super" from by decide, if_neg, List.take, List.map]
  rw [result_of, why_text]
  norm_num [why_genres_text, sort_by_score, List.mergeSort_singleton, dgetD, dget?, mLow,
    show String.intercalate ", " ["B"] = "B" from by decide,
    show ("B" : String) ≠ "" from by decide,
    show ("A" : String) ≠ "B" from by decide,
    show ("http://3" : String) ≠ "" from by decide,
    show "Strong match for your " ++ "B" ++ " taste." = "Strong match for your B taste." from by
      decide]

/-! ### Membership chains through the selection pipeline -/

/-- Everything surviving the threshold loop was in the initial working set. -/
theorem mem_relax (bs : ℕ) (ts : List ℚ) (w : List (Movie × ℝ)) (x : Movie × ℝ)
    (h : x ∈ relax bs ts w) : x ∈ w := by
  induction ts generalizing w with
  | nil => exact h
  | cons t ts ih =>
    rw [relax] at h
    have h2 := ih _ h
    by_cases h3 : bs ≤ (w.filter (fun ms => decide ((t : ℝ) ≤ ms.2))).length
    · rw [if_pos h3] at h2
      exact List.mem_of_mem_filter h2
    · rw [if_neg h3] at h2
      by_cases h4 : w.filter (fun ms => decide ((t : ℝ) ≤ ms.2)) = []
      · rwa [if_pos h4] at h2
      · rw [if_neg h4] at h2
        exact List.mem_of_mem_filter h2

/-- Everything selected by the greedy diversity walk is carried in from the
accumulator or is a rescored element of the walked list. -/
theorem mem_super_select_go (bs : ℕ) (l sel : List (Movie × ℝ)) (counts : List (String × ℕ))
    (x : Movie × ℝ) (h : x ∈ super_select_go bs l sel counts) :
    x ∈ sel ∨ ∃ s : ℝ, (x.1, s) ∈ l := by
  induction l generalizing sel counts with
  | nil => exact Or.inl h
  | cons ms rest ih =>
    rw [super_select_go] at h
    by_cases h2 : bs ≤ sel.length
    · rw [if_pos h2] at h
      exact Or.inl h
    · rw [if_neg h2] at h
      rcases ih _ _ h with h3 | h3
      · rcases List.mem_append.mp h3 with h4 | h4
        · exact Or.inl h4
        · rcases List.mem_singleton.mp h4 with h5
          refine Or.inr ⟨ms.2, ?_⟩
          rw [h5]
          exact List.mem_cons_self _ _
      · rcases h3 with ⟨s, hs⟩
        exact Or.inr ⟨s, List.mem_cons_of_mem _ hs⟩

/-- A scored-pool member's movie is an eligible-pool member. -/
theorem mem_scored_pool (candidates : List Movie) (wk ek lk : List String)
    (ratings : List (String × Option ℚ)) (mode2 : String) (pa pd : List String)
    (ms : Movie × ℝ) (h : ms ∈ scored_pool candidates wk ek lk ratings mode2 pa pd) :
    ms.1 ∈ eligible_pool candidates wk ek lk := by
  rw [scored_pool] at h
  rcases List.mem_map.mp h with ⟨m0, hm0, heq⟩
  rw [← heq]
  exact hm0

/-- Every item returned by `recommend_batch` is built by `result_of` from an
eligible-pool movie (possibly with an adjusted score). -/
theorem mem_recommend_batch (candidates : List Movie) (wk ek lk : List String)
    (ratings : List (String × Option ℚ)) (mode : String) (batch_size : ℤ)
    (pa pd : List String) (item : ResultItem)
    (h : item ∈ recommend_batch candidates wk ek lk ratings mode batch_size pa pd) :
    ∃ m ∈ eligible_pool candidates wk ek lk, ∃ s2 : ℝ,
      item = result_of (batch_profiles candidates wk ratings lk pa pd).1
        (norm_mode mode) (m, s2) := by
  simp only [recommend_batch] at h
  rcases List.mem_map.mp h with ⟨ms, hms, heq⟩
  have hms2 := (List.take_sublist _ _).mem hms
  have hmw : ∃ s : ℝ, (ms.1, s) ∈
      relax (clamp_batch batch_size) (thresholds (norm_mode mode))
        (scored_pool candidates wk ek lk ratings (norm_mode mode) pa pd) := by
    by_cases hc : norm_mode mode = "super"
    · rw [if_pos hc] at hms2
      rw [super_select] at hms2
      have h3 := List.mem_mergeSort.mp hms2
      rcases mem_super_select_go _ _ _ _ _ h3 with h4 | h4
      · exact absurd h4 (List.not_mem_nil ms)
      · rcases h4 with ⟨s, hs⟩
        exact ⟨s, List.mem_mergeSort.mp hs⟩
    · rw [if_neg hc] at hms2
      have h3 := (List.take_sublist _ _).mem hms2
      exact ⟨ms.2, List.mem_mergeSort.mp h3⟩
  rcases hmw with ⟨s, hs⟩
  have hpool := mem_scored_pool _ _ _ _ _ _ _ _ _ (mem_relax _ _ _ _ hs)
  exact ⟨ms.1, hpool, ms.2, by rw [← heq]⟩

/-! ### Claim C3 -/

/-- C3: every item returned by `recommend_batch` has a key (normalised
`title::year`) outside the watched, excluded and liked-context sets. -/
theorem recommend_batch_exclusion (candidates : List Movie) (wk ek lk : List String)
    (ratings : List (String × Option ℚ)) (mode : String) (batch_size : ℤ)
    (pa pd : List String) (item : ResultItem)
    (h : item ∈ recommend_batch candidates wk ek lk ratings mode batch_size pa pd) :
    movie_key item.title item.year ∉ wk ∧
    movie_key item.title item.year ∉ ek ∧
    movie_key item.title item.year ∉ lk := by
  rcases mem_recommend_batch _ _ _ _ _ _ _ _ _ _ h with ⟨m, hm, s2, heq⟩
  have hkey : movie_key item.title item.year = m.key := by
    rw [heq, result_of, Movie.key]
  rw [hkey]
  have h2 := List.of_mem_filter (p := fun m : Movie =>
    decide (m.key ∉ wk ∧ m.key ∉ ek ∧ m.key ∉ lk)) hm
  exact of_decide_eq_true h2

/-- Witness for C3 on the first concrete input. -/
theorem recommend_batch_exclusion_witness :
    ((⟨"M1", "2", "", "http://1", "Strong match for your A taste.", pyRound4 (9/10),
        "regular"⟩ : ResultItem) ∈
      recommend_batch [mW, mTop, mMid] ["w::1"] [] [] [] "regular" 2 [] []) ∧
    (movie_key "M1" "2" ∉ ["w::1"] ∧ movie_key "M1" "2" ∉ ([] : List String) ∧
      movie_key "M1" "2" ∉ ([] : List String)) := by
  have hmem : (⟨"M1", "2", "", "http://1", "Strong match for your A taste.", pyRound4 (9/10),
      "regular"⟩ : ResultItem) ∈
      recommend_batch [mW, mTop, mMid] ["w::1"] [] [] [] "regular" 2 [] [] := by
    rw [eval1_batch2]
    exact List.mem_singleton.mpr rfl
  exact ⟨hmem, recommend_batch_exclusion [mW, mTop, mMid] ["w::1"] [] [] [] "regular" 2 [] []
    _ hmem⟩

/-! ### Claim C2 -/

/-- The fixed template sentence is never the empty string. -/
theorem strong_sentence_ne_empty (g : String) :
    "Strong match for your " ++ g ++ " taste." ≠ "" := by
  intro h
  have h2 := congrArg String.data h
  rw [String.data_append, String.data_append] at h2
  simp at h2

/-- C2 (amended): every returned item's `why_it_fits` is exactly the `why_text`
of its eligible-pool movie; it is non-empty exactly when the genre profile is
non-empty, the movie has a genre, and a non-empty name survives among the
movie's top-2 genres by profile weight; and when non-empty it is the fixed
template sentence around that top-2 genre text. -/
theorem why_it_fits_spec (candidates : List Movie) (wk ek lk : List String)
    (ratings : List (String × Option ℚ)) (mode : String) (batch_size : ℤ)
    (pa pd : List String) (item : ResultItem)
    (h : item ∈ recommend_batch candidates wk ek lk ratings mode batch_size pa pd) :
    ∃ m ∈ eligible_pool candidates wk ek lk,
      item.why_it_fits = why_text (batch_profiles candidates wk ratings lk pa pd).1 m ∧
      (item.why_it_fits ≠ "" ↔
        (batch_profiles candidates wk ratings lk pa pd).1 ≠ [] ∧ m.genres ≠ [] ∧
          why_genres_text (batch_profiles candidates wk ratings lk pa pd).1 m ≠ "") ∧
      (item.why_it_fits ≠ "" →
        item.why_it_fits = "Strong match for your " ++
          why_genres_text (batch_profiles candidates wk ratings lk pa pd).1 m ++
            " taste.") := by
  rcases mem_recommend_batch _ _ _ _ _ _ _ _ _ _ h with ⟨m, hm, s2, heq⟩
  have hwhy : item.why_it_fits =
      why_text (batch_profiles candidates wk ratings lk pa pd).1 m := by
    rw [heq, result_of]
  refine ⟨m, hm, hwhy, ?_⟩
  rw [hwhy, why_text]
  by_cases hA : (batch_profiles candidates wk ratings lk pa pd).1 ≠ [] ∧ m.genres ≠ []
  · rw [if_pos hA]
    by_cases hB : why_genres_text (batch_profiles candidates wk ratings lk pa pd).1 m ≠ ""
    · rw [if_pos hB]
      constructor
      · constructor
        · intro _
          exact ⟨hA.1, hA.2, hB⟩
        · intro _
          exact strong_sentence_ne_empty _
      · intro _
        rfl
    · rw [if_neg hB]
      constructor
      · constructor
        · intro h2
          exact absurd rfl h2
        · intro h2
          exact absurd h2.2.2 hB
      · intro h2
        exact absurd rfl h2
  · rw [if_neg hA]
    constructor
    · constructor
      · intro h2
        exact absurd rfl h2
      · intro h2
        exact absurd ⟨h2.1, h2.2.1⟩ hA
    · intro h2
      exact absurd rfl h2

/-- Witness for C2 on the first concrete input. -/
theorem why_it_fits_spec_witness :
    ((⟨"M1", "2", "", "http://1", "Strong match for your A taste.", pyRound4 (9/10),
        "regular"⟩ : ResultItem) ∈
      recommend_batch [mW, mTop, mMid] ["w::1"] [] [] [] "regular" 2 [] []) ∧
    (∃ m ∈ eligible_pool [mW, mTop, mMid] ["w::1"] [] [],
      (⟨"M1", "2", "", "http://1", "Strong match for your A taste.", pyRound4 (9/10),
        "regular"⟩ : ResultItem).why_it_fits =
        why_text (batch_profiles [mW, mTop, mMid] ["w::1"] [] [] [] []).1 m ∧
      ((⟨"M1", "2", "", "http://1", "Strong match for your A taste.", pyRound4 (9/10),
        "regular"⟩ : ResultItem).why_it_fits ≠ "" ↔
        (batch_profiles [mW, mTop, mMid] ["w::1"] [] [] [] []).1 ≠ [] ∧ m.genres ≠ [] ∧
          why_genres_text (batch_profiles [mW, mTop, mMid] ["w::1"] [] [] [] []).1 m ≠ "") ∧
      ((⟨"M1", "2", "", "http://1", "Strong match for your A taste.", pyRound4 (9/10),
        "regular"⟩ : ResultItem).why_it_fits ≠ "" →
        (⟨"M1", "2", "", "http://1", "Strong match for your A taste.", pyRound4 (9/10),
          "regular"⟩ : ResultItem).why_it_fits =
          "Strong match for your " ++
            why_genres_text (batch_profiles [mW, mTop, mMid] ["w::1"] [] [] [] []).1 m ++
              " taste.")) := by
  have hmem : (⟨"M1", "2", "", "http://1", "Strong match for your A taste.", pyRound4 (9/10),
      "regular"⟩ : ResultItem) ∈
      recommend_batch [mW, mTop, mMid] ["w::1"] [] [] [] "regular" 2 [] [] := by
    rw [eval1_batch2]
    exact List.mem_singleton.mpr rfl
  exact ⟨hmem, why_it_fits_spec [mW, mTop, mMid] ["w::1"] [] [] [] "regular" 2 [] [] _ hmem⟩

/-- Counterexample to C2 as stated: on the second concrete input the sole
returned item has a non-empty `why_it_fits` naming genre `"B"`, yet the genre
profile gives weight `0` to `"B"`, the only genre of the returned movie. -/
theorem why_it_fits_counterexample :
    recommend_batch [mW, mLow] ["w::1"] [] [] [] "regular" 1 [] [] =
      [⟨"M3", "4", "", "http://3", "Strong match for your B taste.", pyRound4 (3/25),
        "regular"⟩] ∧
    (batch_profiles [mW, mLow] ["w::1"] [] [] [] []).1 = [("A", (1 : ℝ))] ∧
    mLow.genres = ["B"] ∧
    dgetD [("A", (1 : ℝ))] "B" 0 = 0 ∧
    ("Strong match for your B taste." : String) ≠ "" := by
  refine ⟨eval2_batch, ?_, rfl, ?_, by decide⟩
  · rw [eval2_profiles]
  · norm_num [dgetD, dget?, show ("A" : String) ≠ "B" from by decide]

/-! ### Claim C7 -/

theorem clamp_batch_pos (batch_size : ℤ) : 1 ≤ clamp_batch batch_size := by
  rw [clamp_batch]
  have h1 : (1 : ℤ) ≤ max 1 (min batch_size 60) := le_max_left _ _
  exact Int.toNat_le_toNat h1

theorem relax_nil (bs : ℕ) (ts : List ℚ) : relax bs ts [] = [] := by
  induction ts with
  | nil => rfl
  | cons t ts ih => simpa [relax] using ih

theorem relax_ne_nil (bs : ℕ) (hbs : 1 ≤ bs) (ts : List ℚ) (w : List (Movie × ℝ))
    (hw : w ≠ []) : relax bs ts w ≠ [] := by
  induction ts generalizing w with
  | nil => exact hw
  | cons t ts ih =>
    rw [relax]
    by_cases h3 : bs ≤ (w.filter (fun ms => decide ((t : ℝ) ≤ ms.2))).length
    · rw [if_pos h3]
      refine ih _ ?_
      intro hcon
      rw [hcon] at h3
      simp at h3
      omega
    · rw [if_neg h3]
      by_cases h4 : w.filter (fun ms => decide ((t : ℝ) ≤ ms.2)) = []
      · rw [if_pos h4]
        exact ih _ hw
      · rw [if_neg h4]
        exact ih _ h4

theorem super_select_go_ne_nil (bs : ℕ) (l sel : List (Movie × ℝ))
    (counts : List (String × ℕ)) (hsel : sel ≠ []) :
    super_select_go bs l sel counts ≠ [] := by
  induction l generalizing sel counts with
  | nil => exact hsel
  | cons ms rest ih =>
    rw [super_select_go]
    by_cases h2 : bs ≤ sel.length
    · rw [if_pos h2]
      exact hsel
    · rw [if_neg h2]
      exact ih _ _ (by simp)

theorem sort_by_score_eq_nil {α : Type} (l : List (α × ℝ))
    (h : sort_by_score l = []) : l = [] := by
  have hlen := congrArg List.length h
  rw [sort_by_score, List.length_mergeSort] at hlen
  exact List.length_eq_zero.mp hlen

theorem super_select_ne_nil (bs : ℕ) (hbs : 1 ≤ bs) (l : List (Movie × ℝ)) (hl : l ≠ []) :
    super_select bs l ≠ [] := by
  rcases l with _ | ⟨x, rest⟩
  · exact absurd rfl hl
  · intro hcon
    have hgo := sort_by_score_eq_nil _ hcon
    rw [super_select_go, if_neg (by simp; omega : ¬ bs ≤ ([] : List (Movie × ℝ)).length)] at hgo
    exact super_select_go_ne_nil _ _ _ _ (by simp) hgo

/-- C7: `recommend_batch` returns the empty list exactly when the eligible pool
is empty; a non-empty pool always yields at least one item (the threshold loop
never collapses a non-empty working set). -/
theorem recommend_batch_empty_iff (candidates : List Movie) (wk ek lk : List String)
    (ratings : List (String × Option ℚ)) (mode : String) (batch_size : ℤ)
    (pa pd : List String) :
    recommend_batch candidates wk ek lk ratings mode batch_size pa pd = [] ↔
      eligible_pool candidates wk ek lk = [] := by
  have hbs := clamp_batch_pos batch_size
  simp only [recommend_batch]
  constructor
  · intro h
    by_contra hpool
    have hscored : scored_pool candidates wk ek lk ratings (norm_mode mode) pa pd ≠ [] := by
      rw [scored_pool]
      intro hcon
      exact hpool (List.map_eq_nil_iff.mp hcon)
    have hworking := relax_ne_nil (clamp_batch batch_size) hbs (thresholds (norm_mode mode))
      _ hscored
    have hsorted : sort_by_score (relax (clamp_batch batch_size) (thresholds (norm_mode mode))
        (scored_pool candidates wk ek lk ratings (norm_mode mode) pa pd)) ≠ [] :=
      fun hcon => hworking (sort_by_score_eq_nil _ hcon)
    have hsel : (if norm_mode mode = "super" then
        super_select (clamp_batch batch_size)
          (sort_by_score (relax (clamp_batch batch_size) (thresholds (norm_mode mode))
            (scored_pool candidates wk ek lk ratings (norm_mode mode) pa pd)))
      else
        (sort_by_score (relax (clamp_batch batch_size) (thresholds (norm_mode mode))
          (scored_pool candidates wk ek lk ratings (norm_mode mode) pa pd))).take
            (clamp_batch batch_size)) ≠ [] := by
      by_cases hc : norm_mode mode = "super"
      · rw [if_pos hc]
        exact super_select_ne_nil _ hbs _ hsorted
      · rw [if_neg hc]
        intro hcon
        rcases List.take_eq_nil_iff.mp hcon with h2 | h2
        · omega
        · exact hsorted h2
    have htake : (List.take (clamp_batch batch_size) (if norm_mode mode = "super" then
        super_select (clamp_batch batch_size)
          (sort_by_score (relax (clamp_batch batch_size) (thresholds (norm_mode mode))
            (scored_pool candidates wk ek lk ratings (norm_mode mode) pa pd)))
      else
        (sort_by_score (relax (clamp_batch batch_size) (thresholds (norm_mode mode))
          (scored_pool candidates wk ek lk ratings (norm_mode mode) pa pd))).take
            (clamp_batch batch_size))) ≠ [] := by
      intro hcon
      rcases List.take_eq_nil_iff.mp hcon with h2 | h2
      · omega
      · exact hsel h2
    exact htake (List.map_eq_nil_iff.mp h)
  · intro h
    have hscored : scored_pool candidates wk ek lk ratings (norm_mode mode) pa pd = [] := by
      rw [scored_pool, h]
      rfl
    rw [hscored, relax_nil]
    have hsort : sort_by_score ([] : List (Movie × ℝ)) = [] := by
      rw [sort_by_score, List.mergeSort_nil]
    rw [hsort]
    by_cases hc : norm_mode mode = "super"
    · rw [if_pos hc, super_select, super_select_go, sort_by_score, List.mergeSort_nil]
      simp
    · rw [if_neg hc]
      simp

/-! ### Claim C1 -/

/-- Tightest (final) threshold of each mode's relaxation ladder. -/
def tight_threshold (mode2 : String) : ℚ :=
  if mode2 = "regular" then 0.6 else 0.35

theorem thresholds_le_tight (mode2 : String) :
    ∀ t ∈ thresholds mode2, t ≤ tight_threshold mode2 := by
  intro t ht
  by_cases h : mode2 = "regular"
  · rw [thresholds, if_pos h] at ht
    rw [tight_threshold, if_pos h]
    fin_cases ht <;> norm_num
  · rw [thresholds, if_neg h] at ht
    rw [tight_threshold, if_neg h]
    fin_cases ht <;> norm_num

theorem filter_tight_of_le (t tq : ℚ) (h : t ≤ tq) (w : List (Movie × ℝ)) :
    ((w.filter (fun ms => decide ((t : ℝ) ≤ ms.2))).filter
        (fun ms => decide ((tq : ℝ) ≤ ms.2))).length =
      (w.filter (fun ms => decide ((tq : ℝ) ≤ ms.2))).length := by
  rw [List.filter_filter]
  congr 1
  apply List.filter_congr
  intro x _
  by_cases hx : (tq : ℝ) ≤ x.2
  · have hx2 : (t : ℝ) ≤ x.2 := le_trans (by exact_mod_cast h) hx
    simp [hx, hx2]
  · simp [hx]

theorem relax_keeps (bs : ℕ) (tq : ℚ) (ts : List ℚ) (hts : ∀ t ∈ ts, t ≤ tq)
    (w : List (Movie × ℝ))
    (h : bs ≤ (w.filter (fun ms => decide ((tq : ℝ) ≤ ms.2))).length) :
    bs ≤ ((relax bs ts w).filter (fun ms => decide ((tq : ℝ) ≤ ms.2))).length := by
  induction ts generalizing w with
  | nil => exact h
  | cons t ts ih =>
    rw [relax]
    have ht := hts t (List.mem_cons_self t ts)
    have hf := filter_tight_of_le t tq ht w
    have hlen : bs ≤ ((w.filter (fun ms => decide ((t : ℝ) ≤ ms.2)))).length := by
      calc bs ≤ (w.filter (fun ms => decide ((tq : ℝ) ≤ ms.2))).length := h
        _ = ((w.filter (fun ms => decide ((t : ℝ) ≤ ms.2))).filter
              (fun ms => decide ((tq : ℝ) ≤ ms.2))).length := hf.symm
        _ ≤ (w.filter (fun ms => decide ((t : ℝ) ≤ ms.2))).length :=
              List.length_filter_le _ _
    rw [if_pos hlen]
    exact ih (fun t2 ht2 => hts t2 (List.mem_cons_of_mem t ht2)) _ (by rw [hf]; exact h)

theorem super_select_go_length_ge (bs : ℕ) (l : List (Movie × ℝ)) :
    ∀ (sel : List (Movie × ℝ)) (counts : List (String × ℕ)),
    bs ≤ sel.length + l.length → bs ≤ (super_select_go bs l sel counts).length := by
  induction l with
  | nil =>
    intro sel counts h
    rw [super_select_go]
    simpa using h
  | cons ms rest ih =>
    intro sel counts h
    rw [super_select_go]
    by_cases h2 : bs ≤ sel.length
    · rwa [if_pos h2]
    · rw [if_neg h2]
      refine ih _ _ ?_
      simp only [List.length_append, List.length_cons] at h ⊢
      omega

theorem super_select_go_length_le (bs : ℕ) (l : List (Movie × ℝ)) :
    ∀ (sel : List (Movie × ℝ)) (counts : List (String × ℕ)),
    sel.length ≤ bs → (super_select_go bs l sel counts).length ≤ bs := by
  induction l with
  | nil =>
    intro sel counts h
    rw [super_select_go]
    exact h
  | cons ms rest ih =>
    intro sel counts h
    rw [super_select_go]
    by_cases h2 : bs ≤ sel.length
    · rwa [if_pos h2]
    · rw [if_neg h2]
      refine ih _ _ ?_
      simp only [List.length_append, List.length_cons, List.length_nil]
      omega

/-- C1 (amended): `recommend_batch` returns at most `clamp(batchSize, 1, 60)`
items, and exactly that many whenever at least that many scored eligible movies
clear the tightest threshold of the active mode (`0.6` regular, `0.35` super).
The claim's original loosest-threshold trigger is refuted by the
counterexample: an intermediate non-empty filter below the batch size replaces
the working set. -/
theorem batch_size_exact (candidates : List Movie) (wk ek lk : List String)
    (ratings : List (String × Option ℚ)) (mode : String) (batch_size : ℤ)
    (pa pd : List String) :
    (recommend_batch candidates wk ek lk ratings mode batch_size pa pd).length ≤
      clamp_batch batch_size ∧
    (clamp_batch batch_size ≤
        ((scored_pool candidates wk ek lk ratings (norm_mode mode) pa pd).filter
          (fun ms => decide ((tight_threshold (norm_mode mode) : ℝ) ≤ ms.2))).length →
      (recommend_batch candidates wk ek lk ratings mode batch_size pa pd).length =
        clamp_batch batch_size) := by
  have hbs := clamp_batch_pos batch_size
  constructor
  · simp only [recommend_batch, List.length_map, List.length_take]
    exact Nat.min_le_left _ _
  · intro h
    have hkeep := relax_keeps (clamp_batch batch_size) (tight_threshold (norm_mode mode))
      (thresholds (norm_mode mode)) (thresholds_le_tight (norm_mode mode)) _ h
    have hwlen : clamp_batch batch_size ≤
        (relax (clamp_batch batch_size) (thresholds (norm_mode mode))
          (scored_pool candidates wk ek lk ratings (norm_mode mode) pa pd)).length :=
      le_trans hkeep (List.length_filter_le _ _)
    have hslen : (sort_by_score (relax (clamp_batch batch_size) (thresholds (norm_mode mode))
        (scored_pool candidates wk ek lk ratings (norm_mode mode) pa pd))).length =
        (relax (clamp_batch batch_size) (thresholds (norm_mode mode))
          (scored_pool candidates wk ek lk ratings (norm_mode mode) pa pd)).length := by
      rw [sort_by_score, List.length_mergeSort]
    simp only [recommend_batch, List.length_map, List.length_take]
    by_cases hc : norm_mode mode = "super"
    · rw [if_pos hc]
      have hsup : (super_select (clamp_batch batch_size)
          (sort_by_score (relax (clamp_batch batch_size) (thresholds (norm_mode mode))
            (scored_pool candidates wk ek lk ratings (norm_mode mode) pa pd)))).length =
          clamp_batch batch_size := by
        rw [super_select, sort_by_score, List.length_mergeSort]
        refine le_antisymm (super_select_go_length_le _ _ _ _ (Nat.zero_le _)) ?_
        refine super_select_go_length_ge _ _ _ _ ?_
        rw [List.length_nil, Nat.zero_add, hslen]
        exact hwlen
      rw [hsup, Nat.min_self]
    · rw [if_neg hc]
      simp only [List.length_take]
      rw [hslen]
      omega


/-- Witness for C1 on the first concrete input with batch size `1`: one movie
clears the tightest regular threshold and exactly one item is returned. -/
theorem batch_size_exact_witness :
    (clamp_batch 1 ≤
      ((scored_pool [mW, mTop, mMid] ["w::1"] [] [] [] (norm_mode "regular") [] []).filter
        (fun ms => decide ((tight_threshold (norm_mode "regular") : ℝ) ≤ ms.2))).length) ∧
    (recommend_batch [mW, mTop, mMid] ["w::1"] [] [] [] "regular" 1 [] []).length =
      clamp_batch 1 := by
  have hcount : clamp_batch 1 ≤
      ((scored_pool [mW, mTop, mMid] ["w::1"] [] [] [] (norm_mode "regular") [] []).filter
        (fun ms => decide ((tight_threshold (norm_mode "regular") : ℝ) ≤ ms.2))).length := by
    rw [show norm_mode "regular" = "regular" from by decide, eval1_scored]
    norm_num [List.filter, tight_threshold, clamp_batch]
  exact ⟨hcount,
    (batch_size_exact [mW, mTop, mMid] ["w::1"] [] [] [] "regular" 1 [] []).2 hcount⟩

/-- Counterexample to C1 as stated: with batch size `2`, both eligible movies
clear the loosest regular threshold `0.3`, yet only one item is returned,
because the `0.5` round keeps a non-empty filter smaller than the batch size. -/
theorem batch_size_loosest_counterexample :
    clamp_batch 2 = 2 ∧
    2 ≤ ((scored_pool [mW, mTop, mMid] ["w::1"] [] [] [] "regular" [] []).filter
        (fun ms => decide (((0.3 : ℚ) : ℝ) ≤ ms.2))).length ∧
    (recommend_batch [mW, mTop, mMid] ["w::1"] [] [] [] "regular" 2 [] []).length = 1 ∧
    (recommend_batch [mW, mTop, mMid] ["w::1"] [] [] [] "regular" 2 [] []).length ≠ 2 := by
  refine ⟨by decide, ?_, ?_, ?_⟩
  · rw [eval1_scored]
    norm_num [List.filter]
  · rw [eval1_batch2]
    rfl
  · rw [eval1_batch2]
    norm_num

/-! ### Claim C4 -/

theorem normalize_profile_bounds (raw : List (String × ℚ)) (kv : String × ℚ)
    (h : kv ∈ normalize_profile raw) : 0 ≤ kv.2 ∧ kv.2 ≤ 1 := by
  rcases raw with _ | ⟨⟨k0, v0⟩, t⟩
  · simp [normalize_profile] at h
  · simp only [normalize_profile] at h
    by_cases hm : (t.map Prod.snd).foldl max v0 ≤ 0
    · rw [if_pos hm] at h
      rcases List.mem_map.mp h with ⟨x, _, hx⟩
      rw [← hx]
      norm_num
    · rw [if_neg hm] at h
      rcases List.mem_map.mp h with ⟨x, _, hx⟩
      rw [← hx]
      refine ⟨le_max_left 0 _, max_le (by norm_num) (min_le_right _ 1)⟩

theorem genre_adjust_bounds (raw : List (String × ℚ)) (kv : String × ℝ)
    (h : kv ∈ genre_adjust raw) : 0 ≤ kv.2 ∧ kv.2 ≤ 1 := by
  simp only [genre_adjust] at h
  rcases List.mem_map.mp h with ⟨x, _, hx⟩
  rw [← hx]
  exact ⟨le_max_left 0 _, max_le (by norm_num) (min_le_right _ 1)⟩

theorem set_preferred_cons (profile : List (String × ℚ)) (a : String) (l : List String) :
    set_preferred profile (a :: l) =
      set_preferred (if pyStrip a = "" then profile else dset profile (pyStrip a) 1) l := rfl

theorem set_preferred_bounds (names : List String) :
    ∀ (profile : List (String × ℚ)), (∀ kv ∈ profile, 0 ≤ kv.2 ∧ kv.2 ≤ 1) →
    ∀ kv ∈ set_preferred profile names, 0 ≤ kv.2 ∧ kv.2 ≤ 1 := by
  induction names with
  | nil => exact fun profile h0 => h0
  | cons a rest ih =>
    intro profile h0 kv h
    rw [set_preferred_cons] at h
    refine ih _ ?_ kv h
    by_cases ha : pyStrip a = ""
    · rw [if_pos ha]
      exact h0
    · rw [if_neg ha]
      intro kv2 h2
      rcases mem_dset _ _ _ _ h2 with h3 | h3
      · rw [h3]
        norm_num
      · exact h0 kv2 h3

/-- C4: every value of each of the three profiles returned by
`analyze_user_history` lies in the closed interval `[0, 1]`, including after
the entropy rescale of the genre profile and the preferred-actor/director
overrides. -/
theorem profiles_bounded (wk : List String) (ratings : List (String × Option ℚ))
    (idx : List (String × Movie)) (lk pa pd : List String) :
    (∀ kv ∈ (analyze_user_history wk ratings idx lk pa pd).1, 0 ≤ kv.2 ∧ kv.2 ≤ 1) ∧
    (∀ kv ∈ (analyze_user_history wk ratings idx lk pa pd).2.1, 0 ≤ kv.2 ∧ kv.2 ≤ 1) ∧
    (∀ kv ∈ (analyze_user_history wk ratings idx lk pa pd).2.2, 0 ≤ kv.2 ∧ kv.2 ≤ 1) := by
  refine ⟨fun kv h => genre_adjust_bounds _ _ h,
    fun kv h => set_preferred_bounds _ _ (fun kv2 h2 => normalize_profile_bounds _ _ h2) _ h,
    fun kv h => set_preferred_bounds _ _ (fun kv2 h2 => normalize_profile_bounds _ _ h2) _ h⟩

/-- Profile evaluation for the C4 witness: one watched movie plus explicit
preferred-actor and preferred-director overrides. -/
theorem eval3_profiles : analyze_user_history ["w::1"] [] (index_by_key [mW]) [] ["PA"] ["PD"] =
    ([("A", (1 : ℝ))], [("PA", 1)], [("PD", 1)]) := by
  have hraw : raw_profiles ["w::1"] [] (index_by_key [mW]) [] = ([("A", 1)], [], []) := by
    norm_num [raw_profiles, index_by_key, add_weighted, dset, dget?, dgetD, rating_weight,
      mW, Movie.key, show movie_key "W" "1" = "w::1" from by decide]
  rw [analyze_user_history, hraw]
  norm_num [genre_adjust, entropy_norm, normalize_profile, set_preferred, dset, List.filter,
    Real.log_one, show pyStrip "PA" = "PA" from by decide,
    show pyStrip "PD" = "PD" from by decide,
    show ("PA" : String) ≠ "" from by decide,
    show ("PD" : String) ≠ "" from by decide]

/-- Witness for C4: each of the three profiles of the concrete input has its
entry, and the theorem bounds it by `[0, 1]`. -/
theorem profiles_bounded_witness :
    (("A", (1 : ℝ)) ∈ (analyze_user_history ["w::1"] [] (index_by_key [mW]) [] ["PA"] ["PD"]).1 ∧
      0 ≤ (1 : ℝ) ∧ (1 : ℝ) ≤ 1) ∧
    (("PA", (1 : ℚ)) ∈ (analyze_user_history ["w::1"] [] (index_by_key [mW]) [] ["PA"] ["PD"]).2.1 ∧
      0 ≤ (1 : ℚ) ∧ (1 : ℚ) ≤ 1) ∧
    (("PD", (1 : ℚ)) ∈ (analyze_user_history ["w::1"] [] (index_by_key [mW]) [] ["PA"] ["PD"]).2.2 ∧
      0 ≤ (1 : ℚ) ∧ (1 : ℚ) ≤ 1) := by
  have h := profiles_bounded ["w::1"] [] (index_by_key [mW]) [] ["PA"] ["PD"]
  have h1 : ("A", (1 : ℝ)) ∈
      (analyze_user_history ["w::1"] [] (index_by_key [mW]) [] ["PA"] ["PD"]).1 := by
    rw [eval3_profiles]
    simp
  have h2 : ("PA", (1 : ℚ)) ∈
      (analyze_user_history ["w::1"] [] (index_by_key [mW]) [] ["PA"] ["PD"]).2.1 := by
    rw [eval3_profiles]
    simp
  have h3 : ("PD", (1 : ℚ)) ∈
      (analyze_user_history ["w::1"] [] (index_by_key [mW]) [] ["PA"] ["PD"]).2.2 := by
    rw [eval3_profiles]
    simp
  exact ⟨⟨h1, h.1 _ h1⟩, ⟨h2, h.2.1 _ h2⟩, ⟨h3, h.2.2 _ h3⟩⟩

/-! ### Claim C6 -/

/-- C6: a raw genre distribution with a single positive genre has normalised
entropy `0`, concentration `1`, rescale factor exactly `1`, and its normalised
weight `1` passes through the rescale unchanged; a distribution spread exactly
evenly over `n ≥ 2` genres has normalised entropy `1`, concentration `0`, and
rescale factor exactly `0.75`. -/
theorem entropy_edge_cases (g : String) (v : ℚ) (n : ℕ) (d2 : List (String × ℚ))
    (hv : 0 < v) (hn : 2 ≤ n) (hd2 : d2.map Prod.snd = List.replicate n v) :
    entropy_norm [(g, v)] = 0 ∧
    (1 - entropy_norm [(g, v)] : ℝ) = 1 ∧
    (0.75 + 0.25 * (1 - entropy_norm [(g, v)]) : ℝ) = 1 ∧
    genre_adjust [(g, v)] = [(g, 1)] ∧
    entropy_norm d2 = 1 ∧
    (1 - entropy_norm d2 : ℝ) = 0 ∧
    (0.75 + 0.25 * (1 - entropy_norm d2) : ℝ) = 0.75 := by
  have hvne : v ≠ 0 := ne_of_gt hv
  have hnle : ¬ v ≤ 0 := not_le.mpr hv
  have hmax0 : max (0 : ℚ) v = v := max_eq_right hv.le
  have hdiv : v / v = 1 := div_self hvne
  have h1 : entropy_norm [(g, v)] = 0 := by
    norm_num [entropy_norm, List.filter, hmax0, hdiv, hnle, hv, Real.log_one]
  have hnpos : (0 : ℚ) < n := by exact_mod_cast Nat.lt_of_lt_of_le Nat.zero_lt_two hn
  have hnne : (n : ℚ) ≠ 0 := ne_of_gt hnpos
  have h4 : entropy_norm d2 = 1 := by
    have hfilt : (List.replicate n v).filter (fun x => decide (0 < x)) = List.replicate n v := by
      rw [List.filter_replicate, if_pos (by simp [hv])]
    have hrepne : List.replicate n ((n : ℚ)⁻¹) ≠ [] := by
      intro hcon
      have hlen := congrArg List.length hcon
      rw [List.length_replicate] at hlen
      simp at hlen
      omega
    rw [entropy_norm]
    simp only [hd2]
    rw [List.map_replicate, List.sum_replicate, hmax0, nsmul_eq_mul]
    have htotpos : 0 < (n : ℚ) * v := mul_pos hnpos hv
    rw [if_neg (not_le.mpr htotpos), hfilt, List.map_replicate, hmax0]
    have hq : v / ((n : ℚ) * v) = (n : ℚ)⁻¹ := by
      field_simp
      ring
    rw [hq, if_neg hrepne, List.map_replicate, List.sum_replicate, List.length_replicate,
      nsmul_eq_mul]
    have hcast : (((n : ℚ)⁻¹ : ℚ) : ℝ) = ((n : ℝ))⁻¹ := by
      push_cast
      ring
    rw [hcast, Real.log_inv]
    have hn1 : (1 : ℝ) < (n : ℝ) := by exact_mod_cast Nat.lt_of_lt_of_le Nat.one_lt_two hn
    have hlogpos : 0 < Real.log n := Real.log_pos hn1
    rw [if_pos (Nat.lt_of_lt_of_le Nat.one_lt_two hn)]
    have hh : -((n : ℝ) * ((n : ℝ))⁻¹ * -Real.log n) = Real.log n := by
      field_simp
    rw [← mul_assoc, hh, div_self (ne_of_gt hlogpos)]
    norm_num
  refine ⟨h1, by rw [h1]; norm_num, by rw [h1]; norm_num, ?_, h4, by rw [h4]; norm_num,
    by rw [h4]; norm_num⟩
  rw [genre_adjust, h1]
  norm_num [normalize_profile, hnle, hdiv]

/-- Witness for C6: the single-genre case at weight `1` and the even spread
over two genres. -/
theorem entropy_edge_cases_witness :
    ((0 : ℚ) < 1 ∧ 2 ≤ 2 ∧
      ([("x", (1 : ℚ)), ("y", 1)].map Prod.snd = List.replicate 2 1)) ∧
    (entropy_norm [("a", (1 : ℚ))] = 0 ∧
     (1 - entropy_norm [("a", (1 : ℚ))] : ℝ) = 1 ∧
     (0.75 + 0.25 * (1 - entropy_norm [("a", (1 : ℚ))]) : ℝ) = 1 ∧
     genre_adjust [("a", (1 : ℚ))] = [("a", 1)] ∧
     entropy_norm [("x", (1 : ℚ)), ("y", 1)] = 1 ∧
     (1 - entropy_norm [("x", (1 : ℚ)), ("y", 1)] : ℝ) = 0 ∧
     (0.75 + 0.25 * (1 - entropy_norm [("x", (1 : ℚ)), ("y", 1)]) : ℝ) = 0.75) :=
  ⟨⟨by norm_num, by norm_num, by decide⟩,
    entropy_edge_cases "a" 1 2 [("x", 1), ("y", 1)] (by norm_num) (by norm_num) (by decide)⟩
